import Mathlib

/-!
Shallow embedding of the happycompta-tools CSV loader
(`src/tools/loader/csv.go`, `src/tools/loader/load.go` and the amount parser),
together with theorems settling the specification claims about it.

Strings are modelled as Lean `String`s; Go byte strings in this code path only
carry well-formed UTF-8 text. Go's float64 amounts are modelled as `ℚ`:
every amount literal in play is an exact decimal, and the claims are about the
decimal value the parser extracts, not about binary rounding.
-/

namespace HappyCompta

/-- Characters matched by the RE2 character class `\s` used by Go's
regexp package, namely tab, newline, form feed, carriage return and space. -/
def isREWhitespace (c : Char) : Bool :=
  c = (' ') || c = ('\t') || c = ('\n') || c = Char.ofNat 12 || c = Char.ofNat 13

/-- Characters reported as white space by Go's `unicode.IsSpace` (hence trimmed
by `strings.TrimSpace`), restricted to the Latin-1 range: space, tab, newline,
vertical tab, form feed, carriage return, next line and no-break space. -/
def isGoSpace (c : Char) : Bool :=
  c = (' ') || c = ('\t') || c = ('\n') || c = Char.ofNat 11 || c = Char.ofNat 12 ||
    c = Char.ofNat 13 || c = Char.ofNat 133 || c = Char.ofNat 160

/-- The no-break space character U+00A0. -/
def nbsp : Char := Char.ofNat 160

/-- The euro sign character. -/
def euroSign : Char := Char.ofNat 8364

/-- Matches the suffix `\s?€?$` of the US currency pattern in `parseAmount`. -/
def matchesEnd : List Char → Bool
  | [] => true
  | [c] => isREWhitespace c || c = euroSign
  | [c1, c2] => isREWhitespace c1 && c2 = euroSign
  | _ => false

/-- Matches the suffix `(\.\d{2})?\s?€?$` of the US currency pattern. -/
def matchesFracEnd (l : List Char) : Bool :=
  matchesEnd l ||
    (match l with
     | c :: d1 :: d2 :: rest => c = ('.') && d1.isDigit && d2.isDigit && matchesEnd rest
     | _ => false)

/-- True when the list starts with a decimal digit. -/
def headIsDigit : List Char → Bool
  | c :: _ => c.isDigit
  | [] => false

/-- Matches `(,\d{3})*` followed by `(\.\d{2})?\s?€?$`: the comma-separated
thousands groups of the US currency pattern and the rest of the pattern.
Each group must be a comma followed by exactly three digits (a fourth digit
after a group makes the anchored pattern unmatchable, so it is rejected). -/
def matchesCommaGroups : List Char → Bool
  | (',') :: d1 :: d2 :: d3 :: rest =>
      d1.isDigit && d2.isDigit && d3.isDigit && !headIsDigit rest &&
        matchesCommaGroups rest
  | l => matchesFracEnd l

/-- Matches `(\d{1,3}(,\d{3})*|\d+)(\.\d{2})?\s?€?$`: the numeric core of the
US currency pattern and the rest of the pattern. -/
def matchesNumber (l : List Char) : Bool :=
  let digits := l.takeWhile Char.isDigit
  let rest := l.dropWhile Char.isDigit
  !digits.isEmpty &&
    (matchesFracEnd rest || (decide (digits.length ≤ 3) && matchesCommaGroups rest))

/-- Remainders reachable after optionally consuming one character satisfying
`p`, used for the `€?` and `\s?` prefixes of the US currency pattern. -/
def optionalChar (p : Char → Bool) (l : List Char) : List (List Char) :=
  match l with
  | c :: rest => if p c then [c :: rest, rest] else [c :: rest]
  | [] => [[]]

/-- Decides whether a string matches the anchored Go regular expression
`^€?\s?(\d{1,3}(,\d{3})*|\d+)(\.\d{2})?\s?€?$` from `parseAmount`
(`usCurrencyPattern` in the loader sources). -/
def matchesUSCurrency (s : String) : Bool :=
  (optionalChar (fun c => c = euroSign) s.toList).any (fun l1 =>
    (optionalChar isREWhitespace l1).any matchesNumber)

/-- Numeric value of a list of decimal digit characters. -/
def digitsToNat (l : List Char) : ℕ :=
  l.foldl (fun n c => 10 * n + (c.toNat - 48)) 0

/-- Models Go's `strconv.ParseFloat` restricted to plain decimal notation
(an optional sign, decimal digits and at most one decimal point). The cleaned
amount strings this loader feeds to `ParseFloat` never use the exponent,
hexadecimal, underscore, infinity or NaN forms. -/
def goParseFloat (s : String) : Option ℚ :=
  let l0 := s.toList
  let negative : Bool :=
    match l0 with
    | c :: _ => c == ('-')
    | [] => false
  let l1 :=
    match l0 with
    | c :: r => if c == ('-') || c == ('+') then r else l0
    | [] => l0
  let intPart := l1.takeWhile Char.isDigit
  let r1 := l1.dropWhile Char.isDigit
  let magnitude : Option ℚ :=
    match r1 with
    | [] => if intPart.isEmpty then none else some (digitsToNat intPart)
    | c :: r2 =>
      if c = ('.') then
        let fracPart := r2.takeWhile Char.isDigit
        let r3 := r2.dropWhile Char.isDigit
        if r3.isEmpty && !(intPart.isEmpty && fracPart.isEmpty) then
          some ((digitsToNat (intPart ++ fracPart) : ℚ) / (10 : ℚ) ^ fracPart.length)
        else none
      else none
  magnitude.map (fun q => if negative then -q else q)

/-- Removes every occurrence of the character `c`, modelling
`strings.ReplaceAll(s, string(c), "")` for a one-character needle. -/
def removeChar (c : Char) (s : String) : String :=
  String.mk (s.toList.filter (fun x => x ≠ c))

/-- Replaces every occurrence of the character `a` by `b`, modelling
`strings.ReplaceAll(s, string(a), string(b))` for one-character strings. -/
def replaceChar (a b : Char) (s : String) : String :=
  String.mk (s.toList.map (fun c => if c = a then b else c))

/-- Models `strings.TrimSpace`: removes leading and trailing white space. -/
def goTrimSpace (s : String) : String :=
  String.mk (((s.toList.dropWhile isGoSpace).reverse.dropWhile isGoSpace).reverse)

/-- parseAmount reads a currency in either US or European format into a
number, following the loader's `parseAmount`: the euro sign is stripped; if
the original input matches the US pattern, thousands commas are removed and
the result trimmed; otherwise dots, spaces and no-break spaces are removed
and the decimal comma becomes a dot; finally the cleaned string is parsed.
The error message on a failed final parse carries the original and the
cleaned string (the trailing part models the text of strconv's error). -/
def parseAmount (input : String) : Except String ℚ :=
  if input = "" then Except.error ("amount is missing or empty")
  else
    let noEuro := removeChar euroSign input
    let clean :=
      if matchesUSCurrency input then goTrimSpace (removeChar (',') noEuro)
      else replaceChar (',') ('.')
        (removeChar nbsp (removeChar (' ') (removeChar ('.') noEuro)))
    match goParseFloat clean with
    | some q => Except.ok q
    | none =>
        Except.error ("failed to parse amount '" ++ input ++ "' (cleaned: '" ++ clean
          ++ "'): strconv.ParseFloat: parsing \"" ++ clean ++ "\": invalid syntax")

/-- Decides whether `needle` occurs as a contiguous substring of the list. -/
def listContainsSub (needle : List Char) : List Char → Bool
  | [] => needle.isEmpty
  | c :: rest => needle.isPrefixOf (c :: rest) || listContainsSub needle rest

/-- Decides whether `needle` occurs as a contiguous substring of `hay`. -/
def strContainsSub (needle hay : String) : Bool :=
  listContainsSub needle.toList hay.toList

/-- C6: parseAmount returns exactly the numeric value with no
thousands-separator artifacts for the US-style inputs "1,234.56", "1234.56"
and "1000", and returns the same numeric value 1234.56 for the European forms
"1234,56" and "1 234,56 €", including when the group separator is a
non-breaking space. -/
theorem parseAmount_us_and_european_values :
    parseAmount ("1,234.56") = Except.ok ((123456 : ℚ) / 100)
      ∧ parseAmount ("1234.56") = Except.ok ((123456 : ℚ) / 100)
      ∧ parseAmount ("1000") = Except.ok (1000 : ℚ)
      ∧ parseAmount ("1234,56") = Except.ok ((123456 : ℚ) / 100)
      ∧ parseAmount ("1 234,56 " ++ String.mk [euroSign]) = Except.ok ((123456 : ℚ) / 100)
      ∧ parseAmount (String.mk (('1') :: nbsp :: (['2', '3', '4', ',', '5', '6'])))
          = Except.ok ((123456 : ℚ) / 100) := by
  refine ⟨?_, ?_, ?_, ?_, ?_, ?_⟩ <;> rfl

/-- C7: parseAmount("") fails, and parseAmount("100.50abc") fails with an
error message containing both the original input string and the cleaned
string "10050abc" produced before the final numeric parse. -/
theorem parseAmount_failure_messages :
    parseAmount ("") = Except.error ("amount is missing or empty")
      ∧ parseAmount ("100.50abc")
          = Except.error ("failed to parse amount '100.50abc' (cleaned: '10050abc'): strconv.ParseFloat: parsing \"10050abc\": invalid syntax")
      ∧ strContainsSub ("100.50abc")
          ("failed to parse amount '100.50abc' (cleaned: '10050abc'): strconv.ParseFloat: parsing \"10050abc\": invalid syntax") = true
      ∧ strContainsSub ("10050abc")
          ("failed to parse amount '100.50abc' (cleaned: '10050abc'): strconv.ParseFloat: parsing \"10050abc\": invalid syntax") = true := by
  refine ⟨?_, ?_, ?_, ?_⟩ <;> rfl

/-- Models the Unicode simple lower-case mapping used by Go's
`strings.ToLower` and `strings.EqualFold`, restricted to the ASCII and
Latin-1 letters; every name handled by this loader development stays in
that range, where Go's mapping and this one agree. -/
def goCharToLower (c : Char) : Char :=
  if 65 ≤ c.toNat && c.toNat ≤ 90 then Char.ofNat (c.toNat + 32)
  else if 192 ≤ c.toNat && c.toNat ≤ 222 && c.toNat != 215 then Char.ofNat (c.toNat + 32)
  else c

/-- Models the Unicode simple upper-case mapping used by Go's
`strings.ToUpper`, restricted to the ASCII and Latin-1 letters. -/
def goCharToUpper (c : Char) : Char :=
  if 97 ≤ c.toNat && c.toNat ≤ 122 then Char.ofNat (c.toNat - 32)
  else if 224 ≤ c.toNat && c.toNat ≤ 254 && c.toNat != 247 then Char.ofNat (c.toNat - 32)
  else c

/-- Models `strings.ToLower` on the character range described at
`goCharToLower`. -/
def goToLower (s : String) : String :=
  String.mk (s.toList.map goCharToLower)

/-- Models `strings.ToUpper` on the character range described at
`goCharToUpper`. -/
def goToUpper (s : String) : String :=
  String.mk (s.toList.map goCharToUpper)

/-- Models `strings.EqualFold` (case-insensitive equality) on the character
range described at `goCharToLower`. -/
def eqFold (a b : String) : Bool :=
  goToLower a == goToLower b

/-- Budget from lib/types.go: BudgetUndefined, BudgetFON, BudgetASC. -/
inductive Budget where
  | undefined
  | fon
  | asc
deriving DecidableEq

/-- The `String()` method of Budget. -/
def Budget.goString : Budget → String
  | .fon => "FON"
  | .asc => "ASC"
  | .undefined => "unknown"

/-- NewBudgetFromString from lib/types.go: FON and AEP are read as
BudgetFON while ASC is read as BudgetASC, after upper-casing. -/
def NewBudgetFromString (s : String) : Budget :=
  let upper := goToUpper s
  if upper == ("FON") || upper == ("AEP") then Budget.fon
  else if upper == ("ASC") then Budget.asc
  else Budget.undefined

/-- Kind from lib/types.go: KindUndefined, KindSpend, KindTake,
KindAllocation. -/
inductive Kind where
  | undefined
  | spend
  | take
  | allocation
deriving DecidableEq

/-- The `String()` method of Kind. -/
def Kind.goString : Kind → String
  | .spend => "depenses"
  | .take => "recettes"
  | .allocation => "attributions"
  | .undefined => "unknown"

/-- NewKind from lib/types.go. -/
def NewKind (s : String) : Kind :=
  if s == ("depenses") then Kind.spend
  else if s == ("recettes") then Kind.take
  else if s == ("attributions") then Kind.allocation
  else Kind.undefined

/-- PaymentMethod from lib/types.go. -/
inductive PaymentMethod where
  | undefined
  | checkReceived
  | cash
  | card
  | transfer
  | directDebit
  | checkEmitted
  | checkAllocation
deriving DecidableEq

/-- NewPaymentMethodFromString from lib/types.go: converts a string
(case-insensitive) into a PaymentMethod value. -/
def NewPaymentMethodFromString (s : String) : PaymentMethod :=
  let lowerS := goToLower s
  if lowerS == ("check received") then PaymentMethod.checkReceived
  else if lowerS == ("cash") then PaymentMethod.cash
  else if lowerS == ("card") then PaymentMethod.card
  else if lowerS == ("transfer") then PaymentMethod.transfer
  else if lowerS == ("direct debit") then PaymentMethod.directDebit
  else if lowerS == ("check emitted") then PaymentMethod.checkEmitted
  else if lowerS == ("check allocation") then PaymentMethod.checkAllocation
  else PaymentMethod.undefined

/-- PeriodStatus from lib/types.go. -/
inductive PeriodStatus where
  | undefined
  | current
  | provisionallyClosed
  | definitelyClosed
deriving DecidableEq

/-- Calendar date, modelling the `time.Time` values of this loader, which
only ever carry a day, month and year parsed with `lib.DateLayout`
("02/01/2006", that is DD/MM/YYYY). -/
structure GoDate where
  day : ℕ
  month : ℕ
  year : ℕ
deriving DecidableEq

/-- Leap-year rule of the proleptic Gregorian calendar used by Go's time
package. -/
def isLeapYear (y : ℕ) : Bool :=
  y % 4 == 0 && (y % 100 != 0 || y % 400 == 0)

/-- Number of days of a month, as validated by Go's `time.Parse`. -/
def daysInMonth (m y : ℕ) : ℕ :=
  if m == 2 then (if isLeapYear y then 29 else 28)
  else if m == 4 || m == 6 || m == 9 || m == 11 then 30
  else 31

/-- Models `time.Parse(lib.DateLayout, s)` for the fixed layout
"02/01/2006": exactly two day digits, a slash, two month digits, a slash and
four year digits, with the day and month checked against the calendar. -/
def goParseDate (s : String) : Option GoDate :=
  match s.toList with
  | [d1, d2, c1, m1, m2, c2, y1, y2, y3, y4] =>
    if c1 == ('/') && c2 == ('/') && d1.isDigit && d2.isDigit && m1.isDigit && m2.isDigit
        && y1.isDigit && y2.isDigit && y3.isDigit && y4.isDigit then
      let day := digitsToNat [d1, d2]
      let month := digitsToNat [m1, m2]
      let year := digitsToNat [y1, y2, y3, y4]
      if 1 ≤ month && month ≤ 12 && 1 ≤ day && day ≤ daysInMonth month year then
        some ⟨day, month, year⟩
      else none
    else none
  | _ => none

/-- Left-pads the decimal representation of `n` with zeros to `width`
characters, as Go's fixed-width time layouts do. -/
def padNat (width n : ℕ) : String :=
  let digits := toString n
  String.mk (List.replicate (width - digits.length) ('0')) ++ digits

/-- Models `Format(lib.DateLayout)` of a date: DD/MM/YYYY. -/
def formatDate (d : GoDate) : String :=
  padNat 2 d.day ++ ("/") ++ padNat 2 d.month ++ ("/") ++ padNat 4 d.year

/-- Account from the lib sources: a bank account of the organization. -/
structure Account where
  id : ℤ
  bank : String
  budget : Budget
  abbreviation : String
deriving DecidableEq

/-- Employee from lib/employees.go. -/
structure Employee where
  id : String
  lastname : String
  firstname : String
  active : Bool
deriving DecidableEq

/-- Provider from the lib sources. Only the fields the loader reads are
given non-defaulted literals in this development. -/
structure Provider where
  id : String
  name : String
  address : String := ""
  zipCode : String := ""
  city : String := ""
  phone : String := ""
  email : String := ""
  comment : String := ""
  archived : Bool := false
deriving DecidableEq

/-- Category from lib/categories.go; the IntBool `Stock` flag becomes a
plain Bool. -/
structure Category where
  id : ℤ
  parentId : ℤ := 0
  kind : Kind := Kind.undefined
  name : String
  budget : Budget
  stock : Bool := false
deriving DecidableEq

/-- Period from the lib sources. -/
structure Period where
  id : String
  status : PeriodStatus
  startDate : GoDate
  endDate : GoDate
deriving DecidableEq

/-- AllocationLine from the lib sources; the float64 amount is modelled as a
rational. -/
structure AllocationLine where
  categoryId : ℤ
  amount : ℚ
  stock : ℤ
deriving DecidableEq

/-- Entry from the lib sources. The `Party` interface field has only two
implementations, Employee and Provider, so it is modelled as an optional sum;
field defaults are the Go zero values the loader starts from. -/
structure Entry where
  period : String := ""
  kind : Kind := Kind.undefined
  date : GoDate := ⟨0, 0, 0⟩
  name : String := ""
  budget : Budget := Budget.undefined
  allocation : List AllocationLine := []
  party : Option (Employee ⊕ Provider) := none
  paymentMethod : PaymentMethod := PaymentMethod.undefined
  account : Account := ⟨0, "", Budget.undefined, ""⟩
  comment : String := ""
  receipts : List String := []
deriving DecidableEq

/-- Go maps keyed by strings are modelled as association lists where a new
binding is prepended; lookup takes the most recent binding, so a duplicated
key overwrites, as in Go. -/
def mapInsert {α : Type} (k : String) (v : α) (m : List (String × α)) : List (String × α) :=
  (k, v) :: m

/-- Lookup in the association-list model of a Go map. -/
def mapFind {α : Type} (m : List (String × α)) (k : String) : Option α :=
  (m.find? (fun p => p.1 == k)).map (fun p => p.2)

/-- createCategoriesMap from csv.go: keys are `"<budget>|<name>"`, with the
budget printed by its `String()` method. -/
def createCategoriesMap (slice : List Category) : List (String × Category) :=
  slice.foldl (fun m c => mapInsert (c.budget.goString ++ ("|") ++ c.name) c m) []

/-- createEmployeesMap from csv.go: maps the lower-cased
"Lastname Firstname" to the employee. -/
def createEmployeesMap (slice : List Employee) : List (String × Employee) :=
  slice.foldl (fun m e => mapInsert (goToLower (e.lastname ++ (" ") ++ e.firstname)) e m) []

/-- createProvidersMap from csv.go: maps the lower-cased name to the
provider. -/
def createProvidersMap (slice : List Provider) : List (String × Provider) :=
  slice.foldl (fun m p => mapInsert (goToLower p.name) p m) []

/-- createPeriodsMap from csv.go: maps `<Start>-<End>` dates to the period,
and also maps the empty string to the current period. -/
def createPeriodsMap (slice : List Period) : List (String × Period) :=
  slice.foldl
    (fun m p =>
      let m1 := mapInsert (formatDate p.startDate ++ ("-") ++ formatDate p.endDate) p m
      if p.status = PeriodStatus.current then mapInsert ("") p m1 else m1)
    []

/-- The employee lookup performed by createEntryFromRow:
`employees[strings.ToLower(employeeStr)]` over the map built by
createEmployeesMap. -/
def lookupEmployee (slice : List Employee) (cell : String) : Option Employee :=
  mapFind (createEmployeesMap slice) (goToLower cell)

/-- CSVColumns from the loader configuration: one configurable header name
per logical field. -/
structure CSVColumns where
  name : String := ""
  date : String := ""
  amount : String := ""
  stock : String := ""
  category : String := ""
  comment : String := ""
  payment : String := ""
  budget : String := ""
  employee : String := ""
  provider : String := ""
  kind : String := ""
  period : String := ""
  bank : String := ""
deriving DecidableEq

/-- Defaults from the loader configuration. -/
structure Defaults where
  budget : String := ""
  bank : String := ""
  category : String := ""
  payment : String := ""
  kind : String := ""
  period : String := ""
deriving DecidableEq

/-- columnMap from csv.go: the zero-based index of each logical column in
the CSV file, or -1 when absent. -/
structure columnMap where
  name : ℤ
  date : ℤ
  amount : ℤ
  stock : ℤ
  category : ℤ
  comment : ℤ
  payment : ℤ
  budget : ℤ
  employee : ℤ
  provider : ℤ
  kind : ℤ
  period : ℤ
  bank : ℤ
deriving DecidableEq

/-- The thirteen logical fields of columnMap. -/
inductive ColField where
  | name
  | date
  | amount
  | stock
  | category
  | comment
  | payment
  | budget
  | employee
  | provider
  | kind
  | period
  | bank
deriving DecidableEq, Fintype

/-- Configured header name of a logical field. -/
def colName (c : CSVColumns) : ColField → String
  | .name => c.name
  | .date => c.date
  | .amount => c.amount
  | .stock => c.stock
  | .category => c.category
  | .comment => c.comment
  | .payment => c.payment
  | .budget => c.budget
  | .employee => c.employee
  | .provider => c.provider
  | .kind => c.kind
  | .period => c.period
  | .bank => c.bank

/-- Index recorded in a columnMap for a logical field. -/
def getCol (m : columnMap) : ColField → ℤ
  | .name => m.name
  | .date => m.date
  | .amount => m.amount
  | .stock => m.stock
  | .category => m.category
  | .comment => m.comment
  | .payment => m.payment
  | .budget => m.budget
  | .employee => m.employee
  | .provider => m.provider
  | .kind => m.kind
  | .period => m.period
  | .bank => m.bank

/-- Updates the index of a logical field in a columnMap. -/
def setCol (m : columnMap) : ColField → ℤ → columnMap
  | .name, i => { m with name := i }
  | .date, i => { m with date := i }
  | .amount, i => { m with amount := i }
  | .stock, i => { m with stock := i }
  | .category, i => { m with category := i }
  | .comment, i => { m with comment := i }
  | .payment, i => { m with payment := i }
  | .budget, i => { m with budget := i }
  | .employee, i => { m with employee := i }
  | .provider, i => { m with provider := i }
  | .kind, i => { m with kind := i }
  | .period, i => { m with period := i }
  | .bank, i => { m with bank := i }

/-- The order in which the Go map literal of buildColumnMap lists the
fields: Name, Date, Amount, Stock, Category, Comment, Payment, Budget,
Employee, Provider, Kind, Period, Bank. -/
def literalOrder : List ColField :=
  [.name, .date, .amount, .stock, .category, .comment, .payment, .budget,
   .employee, .provider, .kind, .period, .bank]

/-- The Go map literal of buildColumnMap keys each configured name to a
pointer at the matching result field; a name configured for several fields
is a duplicated map key, and the entry later in the literal overwrites, so
the lookup yields the last field in literal order carrying that name. -/
def lastFieldWithName (c : CSVColumns) (s : String) : Option ColField :=
  (literalOrder.filter (fun f => colName c f == s)).getLast?

/-- The columnMap before any header cell is processed: every field absent. -/
def initColumnMap : columnMap :=
  ⟨-1, -1, -1, -1, -1, -1, -1, -1, -1, -1, -1, -1, -1⟩

/-- One iteration of the header loop of buildColumnMap: when the cell text
is a key of the map literal and is not empty, the matching field (the last
in literal order with that configured name) receives the index. -/
def assignHeaderCell (c : CSVColumns) (acc : columnMap) (i : ℕ) (h : String) : columnMap :=
  match lastFieldWithName c h with
  | some f => if h ≠ "" then setCol acc f (i : ℤ) else acc
  | none => acc

/-- The header loop of buildColumnMap, with `i` the index of the first cell
of the remaining header. -/
def buildColumnMapAux (c : CSVColumns) (acc : columnMap) (i : ℕ) : List String → columnMap
  | [] => acc
  | h :: rest => buildColumnMapAux c (assignHeaderCell c acc i h) (i + 1) rest

/-- buildColumnMap from csv.go: reads the header and maps the configured
column names to their corresponding zero-based index in the CSV file. -/
def buildColumnMap (header : List String) (c : CSVColumns) : columnMap :=
  buildColumnMapAux c initColumnMap 0 header

/-- getField from csv.go: safely retrieves a trimmed field value from the
row slice, or the empty string when the column index is out of range. -/
def getField (row : List String) (colIndex : ℤ) : String :=
  if 0 ≤ colIndex && colIndex < (row.length : ℤ) then
    goTrimSpace (row.getD colIndex.toNat (""))
  else ""

/-- getOptionalField from csv.go: getField with a fallback default when the
field is empty. -/
def getOptionalField (row : List String) (colIndex : ℤ) (defaultValue : String) : String :=
  let value := getField row colIndex
  if value = "" then defaultValue else value

/-- Result of a Go function returning `(value, error)`: either the value, an
error carrying its message, or a runtime panic (such as indexing an empty
slice). -/
inductive GoResult (α : Type) where
  | ok (val : α)
  | error (msg : String)
  | crash
deriving DecidableEq

instance : Monad GoResult where
  pure := GoResult.ok
  bind := fun r f =>
    match r with
    | .ok a => f a
    | .error e => .error e
    | .crash => .crash

/-- The `AmbiguousBank` message of getAccountFromBankBudget. -/
def ambiguousBankMsg : String :=
  "more than one bank found, you have to provide the name of the bank holding the account"

/-- The `AmbiguousAccount` message for several exact-budget matches. -/
def ambiguousAccountMsg (budget : Budget) (bank : String) : String :=
  "more than one account found for the " ++ budget.goString ++ " budget at " ++ bank
    ++ " bank. This is not supported yet"

/-- The `AmbiguousAccount` message for several undefined-budget matches. -/
def ambiguousUniversalMsg (bank : String) : String :=
  "more than one account found for the both budgets at " ++ bank
    ++ " bank. This is not supported yet"

/-- The `AccountNotFound` message of getAccountFromBankBudget. -/
def accountNotFoundMsg (budget : Budget) (bank : String) : String :=
  "no account found matching the " ++ budget.goString ++ " budget at " ++ bank ++ " bank"

/-- The bank-name collection loop of getAccountFromBankBudget: appends each
account's bank when not already present. -/
def collectBanks : List Account → List String → List String
  | [], acc => acc
  | a :: rest, acc =>
      collectBanks rest (if acc.contains a.bank then acc else acc ++ [a.bank])

/-- Distinct bank names across the accounts, in first-seen order. -/
def distinctBanks (accounts : List Account) : List String :=
  collectBanks accounts []

/-- The matching part of getAccountFromBankBudget, after the bank name has
been resolved: accounts at the bank (case-insensitively) are bucketed by the
switch into exact-budget matches and undefined-budget matches, and the
if/else chain applies the precedence. -/
def resolveWithBank (accounts : List Account) (bank : String) (budget : Budget) :
    GoResult Account :=
  match accounts.filter (fun a => eqFold a.bank bank && a.budget == budget),
      accounts.filter
        (fun a => eqFold a.bank bank && !(a.budget == budget) && a.budget == Budget.undefined) with
  | [m], _ => GoResult.ok m
  | _ :: _ :: _, _ => GoResult.error (ambiguousAccountMsg budget bank)
  | [], [m] => GoResult.ok m
  | [], _ :: _ :: _ => GoResult.error (ambiguousUniversalMsg bank)
  | [], [] => GoResult.error (accountNotFoundMsg budget bank)

/-- getAccountFromBankBudget from csv.go. With an empty bank argument, more
than one distinct bank is an error, and otherwise `banks[0]` is used as the
default — an indexing that panics in Go when the account list is empty. -/
def getAccountFromBankBudget (accounts : List Account) (bank : String) (budget : Budget) :
    GoResult Account :=
  if bank = "" then
    if 1 < (distinctBanks accounts).length then GoResult.error ambiguousBankMsg
    else
      match distinctBanks accounts with
      | [] => GoResult.crash
      | b :: _ => resolveWithBank accounts b budget
  else resolveWithBank accounts bank budget

/-- Modelled from load.go: loadImpl rejects an empty account list (before
any CSV row is processed). -/
def loadImplAccountsCheck (accounts : List Account) : Option String :=
  if accounts.length == 0 then some ("no bank account defined in happy-compta") else none

theorem resolveWithBank_ne_crash (accounts : List Account) (bank : String) (budget : Budget) :
    resolveWithBank accounts bank budget ≠ GoResult.crash := by
  unfold resolveWithBank
  split <;> simp

theorem collectBanks_ne_nil (l : List Account) (acc : List String) (h : acc ≠ []) :
    collectBanks l acc ≠ [] := by
  induction l generalizing acc with
  | nil => exact h
  | cons a rest ih =>
    simp only [collectBanks]
    apply ih
    split
    · exact h
    · simp

theorem distinctBanks_ne_nil (accounts : List Account) (h : accounts ≠ []) :
    distinctBanks accounts ≠ [] := by
  match accounts, h with
  | a :: rest, _ =>
    simp only [distinctBanks, collectBanks]
    apply collectBanks_ne_nil
    split
    · simp_all
    · simp

/-- C10: the account resolver tolerates an empty bank name only when the
account list is non-empty: with at least one account the resolver never hits
the out-of-bounds first-element access (the situation loadImpl establishes
by rejecting an empty account list), while with no accounts and an empty
bank name the `banks[0]` access is out of the bounds of the empty bank list
and panics. -/
theorem getAccount_empty_bank_first_index_safety :
    (∀ (accounts : List Account) (bank : String) (budget : Budget),
        accounts ≠ [] → getAccountFromBankBudget accounts bank budget ≠ GoResult.crash)
      ∧ (∀ budget : Budget, getAccountFromBankBudget [] ("") budget = GoResult.crash)
      ∧ loadImplAccountsCheck [] = some ("no bank account defined in happy-compta") := by
  refine ⟨?_, fun budget => rfl, rfl⟩
  intro accounts bank budget hne
  by_cases hb : bank = ""
  · subst hb
    cases hbk : distinctBanks accounts with
    | nil => exact absurd hbk (distinctBanks_ne_nil accounts hne)
    | cons b t =>
      by_cases ht : 1 < (distinctBanks accounts).length
      · unfold getAccountFromBankBudget
        rw [if_pos rfl, if_pos ht]
        simp
      · unfold getAccountFromBankBudget
        rw [if_pos rfl, if_neg ht, hbk]
        exact resolveWithBank_ne_crash accounts b budget
  · unfold getAccountFromBankBudget
    rw [if_neg hb]
    exact resolveWithBank_ne_crash accounts bank budget

/-- Witness for C10 at a concrete account list. -/
theorem getAccount_empty_bank_first_index_safety_witness :
    getAccountFromBankBudget [⟨10, "First National Bank", Budget.fon, "FNB"⟩] ("") Budget.fon
        ≠ GoResult.crash
      ∧ getAccountFromBankBudget [] ("") Budget.fon = GoResult.crash :=
  ⟨getAccount_empty_bank_first_index_safety.1
      [⟨10, "First National Bank", Budget.fon, "FNB"⟩] ("") Budget.fon (by simp),
    getAccount_empty_bank_first_index_safety.2.1 Budget.fon⟩

/-- C5: with an empty bank name, accounts at more than one distinct bank
make the resolver fail with the ambiguous-bank error and return no account;
when a single distinct bank name exists it is used as the default. -/
theorem getAccount_empty_bank_default (accounts : List Account) (budget : Budget) :
    (1 < (distinctBanks accounts).length →
        getAccountFromBankBudget accounts ("") budget = GoResult.error ambiguousBankMsg)
      ∧ (∀ b, distinctBanks accounts = [b] →
          getAccountFromBankBudget accounts ("") budget = resolveWithBank accounts b budget
            ∧ (b ≠ "" →
                getAccountFromBankBudget accounts ("") budget
                  = getAccountFromBankBudget accounts b budget)) := by
  constructor
  · intro h
    unfold getAccountFromBankBudget
    rw [if_pos rfl, if_pos h]
  · intro b hb
    have hlen : ¬ 1 < (distinctBanks accounts).length := by rw [hb]; simp
    have h1 : getAccountFromBankBudget accounts ("") budget = resolveWithBank accounts b budget := by
      unfold getAccountFromBankBudget
      rw [if_pos rfl, if_neg hlen, hb]
    refine ⟨h1, fun hbne => ?_⟩
    rw [h1]
    unfold getAccountFromBankBudget
    rw [if_neg hbne]

/-- Witness for C5: two accounts at two banks give the ambiguous-bank error,
and a single bank is taken as the default. -/
theorem getAccount_empty_bank_default_witness :
    getAccountFromBankBudget
        [⟨10, "First National Bank", Budget.fon, "FNB"⟩, ⟨20, "Global Reserve", Budget.asc, "GR"⟩]
        ("") Budget.fon = GoResult.error ambiguousBankMsg
      ∧ getAccountFromBankBudget [⟨20, "Global Reserve", Budget.asc, "GR"⟩] ("") Budget.asc
          = resolveWithBank [⟨20, "Global Reserve", Budget.asc, "GR"⟩] ("Global Reserve") Budget.asc :=
  ⟨(getAccount_empty_bank_default _ Budget.fon).1 (by decide),
    ((getAccount_empty_bank_default _ Budget.asc).2 ("Global Reserve") (by decide)).1⟩

theorem univFilter_eq (accounts : List Account) (bank : String) (budget : Budget)
    (hbud : budget ≠ Budget.undefined) :
    accounts.filter
        (fun a => eqFold a.bank bank && !(a.budget == budget) && a.budget == Budget.undefined)
      = accounts.filter (fun a => eqFold a.bank bank && a.budget == Budget.undefined) := by
  apply List.filter_congr
  intro a _
  by_cases hu : a.budget = Budget.undefined
  · have h2 : (a.budget == budget) = false := by
      rw [hu]
      simp only [beq_eq_false_iff_ne]
      exact fun hc => hbud hc.symm
    simp [hu, h2]
    exact fun _ hc => hbud hc.symm
  · have h1 : (a.budget == Budget.undefined) = false := by
      simp only [beq_eq_false_iff_ne]
      exact hu
    simp [h1]

/-- C4: with a resolved bank name, account resolution follows the exact
precedence over the accounts whose bank matches case-insensitively: exactly
one exact-budget match wins outright, several are the ambiguous-account
error; with no exact-budget match, exactly one undefined-budget account
wins and several are an error; with neither, the resolver fails with the
account-not-found error. In particular one exact-budget account plus one
undefined-budget account at the same bank always resolves to the
exact-budget account. -/
theorem getAccount_precedence (accounts : List Account) (bank : String) (budget : Budget)
    (hb : bank ≠ "") (hbud : budget ≠ Budget.undefined) :
    (∀ a, accounts.filter (fun x => eqFold x.bank bank && x.budget == budget) = [a] →
        getAccountFromBankBudget accounts bank budget = GoResult.ok a)
      ∧ (1 < (accounts.filter (fun x => eqFold x.bank bank && x.budget == budget)).length →
          getAccountFromBankBudget accounts bank budget
            = GoResult.error (ambiguousAccountMsg budget bank))
      ∧ (accounts.filter (fun x => eqFold x.bank bank && x.budget == budget) = [] →
          ∀ a, accounts.filter (fun x => eqFold x.bank bank && x.budget == Budget.undefined) = [a] →
            getAccountFromBankBudget accounts bank budget = GoResult.ok a)
      ∧ (accounts.filter (fun x => eqFold x.bank bank && x.budget == budget) = [] →
          1 < (accounts.filter
                (fun x => eqFold x.bank bank && x.budget == Budget.undefined)).length →
            getAccountFromBankBudget accounts bank budget
              = GoResult.error (ambiguousUniversalMsg bank))
      ∧ (accounts.filter (fun x => eqFold x.bank bank && x.budget == budget) = [] →
          accounts.filter (fun x => eqFold x.bank bank && x.budget == Budget.undefined) = [] →
            getAccountFromBankBudget accounts bank budget
              = GoResult.error (accountNotFoundMsg budget bank))
      ∧ (∀ a1 a2 : Account, eqFold a1.bank bank = true → a1.budget = budget →
          eqFold a2.bank bank = true → a2.budget = Budget.undefined →
            getAccountFromBankBudget [a1, a2] bank budget = GoResult.ok a1
              ∧ getAccountFromBankBudget [a2, a1] bank budget = GoResult.ok a1) := by
  have hgo : getAccountFromBankBudget accounts bank budget
      = resolveWithBank accounts bank budget := by
    unfold getAccountFromBankBudget
    rw [if_neg hb]
  have huniv := univFilter_eq accounts bank budget hbud
  refine ⟨?_, ?_, ?_, ?_, ?_, ?_⟩
  · intro a ha
    rw [hgo]
    unfold resolveWithBank
    rw [ha]
  · intro hlen
    rcases hl : accounts.filter (fun x => eqFold x.bank bank && x.budget == budget) with
      _ | ⟨x, _ | ⟨y, tl⟩⟩
    · rw [hl] at hlen
      simp at hlen
    · rw [hl] at hlen
      simp at hlen
    · rw [hgo]
      unfold resolveWithBank
      rw [hl]
  · intro he a ha
    rw [hgo]
    unfold resolveWithBank
    rw [he, huniv, ha]
  · intro he hlen
    rcases hl : accounts.filter (fun x => eqFold x.bank bank && x.budget == Budget.undefined) with
      _ | ⟨x, _ | ⟨y, tl⟩⟩
    · rw [hl] at hlen
      simp at hlen
    · rw [hl] at hlen
      simp at hlen
    · rw [hgo]
      unfold resolveWithBank
      rw [he, huniv, hl]
  · intro he hu
    rw [hgo]
    unfold resolveWithBank
    rw [he, huniv, hu]
  · intro a1 a2 h1 h2 h3 h4
    have pe1 : (eqFold a1.bank bank && a1.budget == budget) = true := by
      rw [h1, h2]
      simp
    have hne2 : (a2.budget == budget) = false := by
      rw [h4]
      simp only [beq_eq_false_iff_ne]
      exact fun hc => hbud hc.symm
    have pe2 : (eqFold a2.bank bank && a2.budget == budget) = false := by
      rw [h3, hne2]
      simp
    have hfe12 : List.filter (fun a => eqFold a.bank bank && a.budget == budget) [a1, a2]
        = [a1] := by
      simp [List.filter, pe1, pe2]
    have hfe21 : List.filter (fun a => eqFold a.bank bank && a.budget == budget) [a2, a1]
        = [a1] := by
      simp [List.filter, pe1, pe2]
    constructor
    · unfold getAccountFromBankBudget
      rw [if_neg hb]
      unfold resolveWithBank
      rw [hfe12]
    · unfold getAccountFromBankBudget
      rw [if_neg hb]
      unfold resolveWithBank
      rw [hfe21]

/-- Witness for C4: one FON account and one undefined-budget account at the
same bank; the exact FON match wins. -/
theorem getAccount_precedence_witness :
    getAccountFromBankBudget
        [⟨10, "Global Reserve", Budget.fon, "GRF"⟩, ⟨30, "Global Reserve", Budget.undefined, "GRU"⟩]
        ("Global Reserve") Budget.fon
      = GoResult.ok ⟨10, "Global Reserve", Budget.fon, "GRF"⟩ :=
  ((getAccount_precedence
      [⟨10, "Global Reserve", Budget.fon, "GRF"⟩, ⟨30, "Global Reserve", Budget.undefined, "GRU"⟩]
      ("Global Reserve") Budget.fon (by decide) (by decide)).2.2.2.2.2
    ⟨10, "Global Reserve", Budget.fon, "GRF"⟩ ⟨30, "Global Reserve", Budget.undefined, "GRU"⟩
    (by decide) rfl (by decide) rfl).1

/-- Models `strconv.Atoi`: an optional sign followed by decimal digits.
Integer-size overflow cannot occur for the stock counts handled here and is
not modelled. -/
def goAtoi (s : String) : Option ℤ :=
  let l0 := s.toList
  let negative : Bool :=
    match l0 with
    | c :: _ => c == ('-')
    | [] => false
  let l1 :=
    match l0 with
    | c :: r => if c == ('-') || c == ('+') then r else l0
    | [] => l0
  if l1.isEmpty || !(l1.all Char.isDigit) then none
  else some (if negative then -(digitsToNat l1 : ℤ) else (digitsToNat l1 : ℤ))

/-- Error message of a date parse failure in createEntryFromRow. The prefix
is the loader's own wording; the tail models the message text of the wrapped
`time.Parse` error. -/
def dateParseErrMsg (dateStr : String) : String :=
  "failed to parse date '" ++ dateStr ++ "': cannot parse it with the '02/01/2006' layout"

/-- createEntryFromRow from csv.go: processes a single CSV row and maps it
to an Entry, returning at the first failing field exactly as the Go code
does with its early `return` statements. -/
def createEntryFromRow (row : List String) (colMap : columnMap) (defaults : Defaults)
    (rowIndex : ℕ) (accounts : List Account) (categories : List (String × Category))
    (employees : List (String × Employee)) (providers : List (String × Provider))
    (periods : List (String × Period)) : GoResult Entry := do
  let dateStr := getField row colMap.date
  let date ←
    if dateStr = "" then GoResult.error ("date column is missing or empty")
    else
      match goParseDate dateStr with
      | some d => pure d
      | none => GoResult.error (dateParseErrMsg dateStr)
  let name := getField row colMap.name
  let amountStr := getField row colMap.amount
  let amount ←
    if amountStr = "" then GoResult.error ("amount column is missing or empty")
    else
      match parseAmount amountStr with
      | Except.ok a => pure a
      | Except.error e =>
          GoResult.error ("failed to parse amount '" ++ amountStr ++ "': " ++ e)
  let comment := getField row colMap.comment
  let kindStr := getOptionalField row colMap.kind defaults.kind
  let kind ←
    if NewKind kindStr = Kind.undefined then
      GoResult.error ("invalid entry type '" ++ kindStr ++ "' on row " ++ toString rowIndex
        ++ ", accepted values are depenses, recettes and attributions")
    else pure (NewKind kindStr)
  let budgetStr := getOptionalField row colMap.budget defaults.budget
  let budget ←
    if (if budgetStr ≠ "" then NewBudgetFromString budgetStr else Budget.undefined)
        = Budget.undefined then
      GoResult.error ("invalid budget '" ++ budgetStr ++ "' on row " ++ toString rowIndex)
    else pure (NewBudgetFromString budgetStr)
  let paymentMethodStr := getOptionalField row colMap.payment defaults.payment
  let paymentMethod ←
    if paymentMethodStr ≠ "" then
      if NewPaymentMethodFromString paymentMethodStr = PaymentMethod.undefined then
        GoResult.error ("invalid payment method '" ++ paymentMethodStr ++ "' on row "
          ++ toString rowIndex)
      else pure (NewPaymentMethodFromString paymentMethodStr)
    else GoResult.error ("missing payment method on row " ++ toString rowIndex)
  let categoryName := getOptionalField row colMap.category defaults.category
  let category ←
    match mapFind categories (budget.goString ++ ("|") ++ categoryName) with
    | some c => pure c
    | none =>
        GoResult.error ("invalid category '" ++ categoryName ++ "' name / '" ++ budget.goString
          ++ "' budget combination for row " ++ toString rowIndex)
  let stockStr := getField row colMap.stock
  let stock ←
    if category.stock then
      if stockStr = "" then
        GoResult.error ("no stock defined for " ++ toString rowIndex ++ " row but "
          ++ category.name ++ " category needs it")
      else
        match goAtoi stockStr with
        | some n => pure n
        | none =>
            GoResult.error ("failed to parse '" ++ stockStr ++ "' stock as an integer for "
              ++ toString rowIndex ++ " row")
    else pure (0 : ℤ)
  let employeeStr := getField row colMap.employee
  let providerStr := getField row colMap.provider
  let party ←
    if employeeStr ≠ "" ∧ providerStr ≠ "" then
      GoResult.error ("row " ++ toString rowIndex ++ " has both employee ('" ++ employeeStr
        ++ "') and provider ('" ++ providerStr ++ "') specified")
    else if employeeStr ≠ "" then
      match mapFind employees (goToLower employeeStr) with
      | some e => pure (some (Sum.inl e))
      | none =>
          GoResult.error ("unknown employee '" ++ employeeStr ++ "' for row "
            ++ toString rowIndex ++ ", the value needs to be in the <Lastname> <Firstname> format")
    else if providerStr ≠ "" then
      match mapFind providers (goToLower providerStr) with
      | some p => pure (some (Sum.inr p))
      | none =>
          GoResult.error ("unknown provider '" ++ providerStr ++ "' for row "
            ++ toString rowIndex ++ ", the value needs to match the name of an existing provider")
    else pure none
  let periodStrRaw := getField row colMap.period
  let periodStr := if periodStrRaw = "" then defaults.period else periodStrRaw
  let period ←
    match mapFind periods periodStr with
    | some p => pure p
    | none =>
        GoResult.error ("couldn't find the '" ++ periodStr ++ "' period for row "
          ++ toString rowIndex ++ ". Is there a current one defined?")
  let account ← getAccountFromBankBudget accounts (getOptionalField row colMap.bank defaults.bank)
    budget
  pure
    { date := date, name := name, comment := comment, kind := kind, budget := budget,
      paymentMethod := paymentMethod,
      allocation := [⟨category.id, amount, stock⟩],
      party := party, period := period.id, account := account }

/-- C3 (amended): employee name normalization, used both when building the
employee index and when looking a cell up, folds to lower case only and does
not strip diacritical marks; two cell spellings resolve identically whenever
their lower-case foldings agree, and an employee's own "Lastname Firstname"
spelling always resolves to that employee. -/
theorem employeeLookup_case_fold_only :
    (∀ (slice : List Employee) (c1 c2 : String), goToLower c1 = goToLower c2 →
        lookupEmployee slice c1 = lookupEmployee slice c2)
      ∧ (∀ e : Employee, lookupEmployee [e] (e.lastname ++ (" ") ++ e.firstname) = some e) := by
  constructor
  · intro slice c1 c2 h
    unfold lookupEmployee
    rw [h]
  · intro e
    simp [lookupEmployee, createEmployeesMap, mapInsert, mapFind]

/-- Witness for C3 (amended): case variants of the same spelling resolve to
the same record. -/
theorem employeeLookup_case_fold_only_witness :
    lookupEmployee [⟨"E10", "DOE", "JOHN", true⟩] ("Doe John")
      = lookupEmployee [⟨"E10", "DOE", "JOHN", true⟩] ("DOE JOHN") :=
  employeeLookup_case_fold_only.1 [⟨"E10", "DOE", "JOHN", true⟩] ("Doe John") ("DOE JOHN") rfl

/-- Counterexample for C3: with the employee "Dupont Émile", the accented
spelling of the cell resolves while the unaccented spelling of the same name
does not, because the normalization is lower-casing only. -/
theorem employeeLookup_diacritics_counterexample :
    lookupEmployee [⟨"E1", "Dupont", "Émile", true⟩] ("Dupont Émile")
        = some ⟨"E1", "Dupont", "Émile", true⟩
      ∧ lookupEmployee [⟨"E1", "Dupont", "Émile", true⟩] ("Dupont Emile") = none := by
  exact ⟨rfl, rfl⟩

/-- Category fixtures from the loader's test file. -/
def mockCategories : List Category :=
  [{ id := 100, name := "Office Supplies", budget := Budget.fon, stock := false },
   { id := 101, name := "Rent", budget := Budget.fon, stock := false },
   { id := 200, name := "Gifts", budget := Budget.asc, stock := false },
   { id := 201, name := "Check Alloc", budget := Budget.asc, stock := true },
   { id := 300, name := "Unused", budget := Budget.fon }]

/-- Period fixtures from the loader's test file: a current period for 2025
and a definitely closed one for 2024. -/
def mockPeriods : List Period :=
  [⟨"12345", PeriodStatus.current, ⟨1, 1, 2025⟩, ⟨31, 12, 2025⟩⟩,
   ⟨"12346", PeriodStatus.definitelyClosed, ⟨1, 1, 2024⟩, ⟨31, 12, 2024⟩⟩]

/-- Default values from the loader's test file. -/
def baseDefaults : Defaults :=
  { budget := "FON", category := "Office Supplies", payment := "card", kind := "depenses",
    period := "" }

/-- The thirteen-column header of the loader's test file. -/
def minimalHeader : List String :=
  ["DATE", "NAME", "AMOUNT", "CATEGORY", "BUDGET", "EMPLOYEE", "PROVIDER", "PAYMENT", "KIND",
   "COMMENT", "STOCK", "PERIOD", "BANK"]

/-- The column-name configuration matching `minimalHeader`. -/
def minimalColumns : CSVColumns :=
  { date := "DATE", name := "NAME", amount := "AMOUNT", category := "CATEGORY",
    budget := "BUDGET", employee := "EMPLOYEE", provider := "PROVIDER", payment := "PAYMENT",
    kind := "KIND", comment := "COMMENT", stock := "STOCK", period := "PERIOD", bank := "BANK" }

/-- The column map built from `minimalHeader`, as in the loader's tests. -/
def minimalColMap : columnMap := buildColumnMap minimalHeader minimalColumns

/-- Account fixture from the loader's test file. -/
def mockAccounts : List Account := [⟨10, "First National Bank", Budget.fon, "FNB"⟩]

/-- Employee fixture from the loader's test file. -/
def mockEmployees : List Employee := [⟨"E10", "DOE", "JOHN", true⟩]

/-- Provider fixture from the loader's test file. -/
def mockProviders : List Provider := [{ id := "P50", name := "TechCorp Solutions", city := "Faketown" }]

/-- C1: on the row of the repository's own multiple-errors test (bad date,
employee/provider conflict and invalid budget together), createEntryFromRow
returns only the date error: the early returns stop at the first failing
field, so the composite error demanded by the claim (and by the repository's
TestCreateEntryFromRow_MultipleErrors) never contains the budget or the
party failure. -/
theorem createEntryFromRow_first_error_only :
    createEntryFromRow
        ["2025-01-01", "Test", "10", "Office Supplies", "INVALID_BUDGET", "John Doe",
         "TechCorp Solutions", "card", "depenses", "", "", "", "First National Bank"]
        minimalColMap baseDefaults 1 mockAccounts (createCategoriesMap mockCategories)
        (createEmployeesMap mockEmployees) (createProvidersMap mockProviders)
        (createPeriodsMap mockPeriods)
      = GoResult.error (dateParseErrMsg ("2025-01-01"))
    ∧ strContainsSub ("invalid budget") (dateParseErrMsg ("2025-01-01")) = false
    ∧ strContainsSub ("has both employee") (dateParseErrMsg ("2025-01-01")) = false := by
  exact ⟨rfl, rfl, rfl⟩

/-- C8: a row with both party cells non-empty does not always produce the
error naming both values: when an earlier field fails (here the budget), the
early return reports only that earlier error. The mutual-exclusion error is
produced, naming both values regardless of their individual validity, only
when every earlier field validates. -/
theorem createEntryFromRow_party_exclusion_not_universal :
    createEntryFromRow
        ["01/01/2025", "Test", "10", "Office Supplies", "INVALID_BUDGET", "John Doe",
         "TechCorp Solutions", "card", "depenses", "", "", "", "First National Bank"]
        minimalColMap baseDefaults 1 mockAccounts (createCategoriesMap mockCategories)
        (createEmployeesMap mockEmployees) (createProvidersMap mockProviders)
        (createPeriodsMap mockPeriods)
      = GoResult.error ("invalid budget 'INVALID_BUDGET' on row 1")
    ∧ strContainsSub ("John Doe") ("invalid budget 'INVALID_BUDGET' on row 1") = false
    ∧ strContainsSub ("TechCorp Solutions") ("invalid budget 'INVALID_BUDGET' on row 1") = false
    ∧ createEntryFromRow
        ["01/01/2025", "Test", "10", "Office Supplies", "FON", "Nobody Unknown",
         "TechCorp Solutions", "card", "depenses", "", "", "", "First National Bank"]
        minimalColMap baseDefaults 1 mockAccounts (createCategoriesMap mockCategories)
        (createEmployeesMap mockEmployees) (createProvidersMap mockProviders)
        (createPeriodsMap mockPeriods)
      = GoResult.error
          ("row 1 has both employee ('Nobody Unknown') and provider ('TechCorp Solutions') specified") := by
  exact ⟨rfl, rfl, rfl, rfl⟩

/-- The row loop of parseCSV from csv.go. The input models the sequence of
`r.Read()` results after the header: a read row or a structural read error,
with the end of the list standing for EOF. A read error or a conversion
error aborts with the wrapped message, exactly as the Go code returns. -/
def parseCSVRows (colMap : columnMap) (defaults : Defaults) (accounts : List Account)
    (categories : List (String × Category)) (employees : List (String × Employee))
    (providers : List (String × Provider)) (periods : List (String × Period)) :
    List (Except String (List String)) → ℕ → GoResult (List Entry)
  | [], _ => GoResult.ok []
  | Except.error e :: _, rowIndex =>
      GoResult.error ("failed to read row " ++ toString rowIndex ++ ": " ++ e)
  | Except.ok row :: rest, rowIndex =>
      match createEntryFromRow row colMap defaults rowIndex accounts categories employees
          providers periods with
      | GoResult.crash => GoResult.crash
      | GoResult.error e =>
          GoResult.error ("failed to process entry on row " ++ toString rowIndex ++ ": " ++ e)
      | GoResult.ok entry =>
          match parseCSVRows colMap defaults accounts categories employees providers periods
              rest (rowIndex + 1) with
          | GoResult.ok entries => GoResult.ok (entry :: entries)
          | r => r

/-- parseCSV from csv.go: reads the header (an empty file is fatal), builds
the column map and the four lookup maps, and runs the row loop with row
indices starting at 1. -/
def parseCSV (input : List (Except String (List String))) (columnsCfg : CSVColumns)
    (defaults : Defaults) (accounts : List Account) (categories : List Category)
    (employees : List Employee) (providers : List Provider) (periods : List Period) :
    GoResult (List Entry) :=
  match input with
  | [] => GoResult.error ("CSV file is empty")
  | Except.error e :: _ => GoResult.error ("failed to read CSV header: " ++ e)
  | Except.ok header :: rows =>
      parseCSVRows (buildColumnMap header columnsCfg) defaults accounts
        (createCategoriesMap categories) (createEmployeesMap employees)
        (createProvidersMap providers) (createPeriodsMap periods) rows 1

theorem parseCSVRows_cons_error (colMap : columnMap) (defaults : Defaults)
    (accounts : List Account) (categories : List (String × Category))
    (employees : List (String × Employee)) (providers : List (String × Provider))
    (periods : List (String × Period)) (row : List String)
    (rest : List (Except String (List String))) (idx : ℕ) (e : String)
    (h : createEntryFromRow row colMap defaults idx accounts categories employees providers
        periods = GoResult.error e) :
    parseCSVRows colMap defaults accounts categories employees providers periods
        (Except.ok row :: rest) idx
      = GoResult.error ("failed to process entry on row " ++ toString idx ++ ": " ++ e) := by
  simp only [parseCSVRows]
  rw [h]

theorem parseCSVRows_cons_ok (colMap : columnMap) (defaults : Defaults)
    (accounts : List Account) (categories : List (String × Category))
    (employees : List (String × Employee)) (providers : List (String × Provider))
    (periods : List (String × Period)) (row : List String)
    (rest : List (Except String (List String))) (idx : ℕ) (ent : Entry)
    (h : createEntryFromRow row colMap defaults idx accounts categories employees providers
        periods = GoResult.ok ent) :
    parseCSVRows colMap defaults accounts categories employees providers periods
        (Except.ok row :: rest) idx
      = (match parseCSVRows colMap defaults accounts categories employees providers periods
            rest (idx + 1) with
         | GoResult.ok entries => GoResult.ok (ent :: entries)
         | r => r) := by
  simp only [parseCSVRows]
  rw [h]

theorem parseCSVRows_first_failure (colMap : columnMap) (defaults : Defaults)
    (accounts : List Account) (categories : List (String × Category))
    (employees : List (String × Employee)) (providers : List (String × Provider))
    (periods : List (String × Period)) :
    ∀ (pre : List (List String)) (idx : ℕ) (badRow : List String)
      (post : List (Except String (List String))) (e : String),
      (∀ (i : ℕ) (h : i < pre.length), ∃ entry,
          createEntryFromRow (pre.get ⟨i, h⟩) colMap defaults (idx + i) accounts categories
            employees providers periods = GoResult.ok entry) →
      createEntryFromRow badRow colMap defaults (idx + pre.length) accounts categories
          employees providers periods = GoResult.error e →
      parseCSVRows colMap defaults accounts categories employees providers periods
          (pre.map Except.ok ++ Except.ok badRow :: post) idx
        = GoResult.error ("failed to process entry on row " ++ toString (idx + pre.length)
            ++ ": " ++ e) := by
  intro pre
  induction pre with
  | nil =>
    intro idx badRow post e _ hbad
    have hbad' : createEntryFromRow badRow colMap defaults idx accounts categories employees
        providers periods = GoResult.error e := hbad
    exact parseCSVRows_cons_error colMap defaults accounts categories employees providers
      periods badRow post idx e hbad'
  | cons p pre ih =>
    intro idx badRow post e hpre hbad
    obtain ⟨ent, hent0⟩ := hpre 0 (by simp)
    have hent : createEntryFromRow p colMap defaults idx accounts categories employees providers
        periods = GoResult.ok ent := hent0
    have hpre' : ∀ (i : ℕ) (h : i < pre.length), ∃ entry,
        createEntryFromRow (pre.get ⟨i, h⟩) colMap defaults (idx + 1 + i) accounts categories
          employees providers periods = GoResult.ok entry := by
      intro i h
      obtain ⟨entry, hentry⟩ := hpre (i + 1) (by simpa using Nat.succ_lt_succ h)
      refine ⟨entry, ?_⟩
      rw [show idx + 1 + i = idx + (i + 1) by omega]
      simpa using hentry
    have hbad' : createEntryFromRow badRow colMap defaults (idx + 1 + pre.length) accounts
        categories employees providers periods = GoResult.error e := by
      rw [show idx + 1 + pre.length = idx + (p :: pre).length by
        simp only [List.length_cons]; omega]
      exact hbad
    have hrec := ih (idx + 1) badRow post e hpre' hbad'
    have hidx : idx + 1 + pre.length = idx + (p :: pre).length := by
      simp only [List.length_cons]; omega
    rw [hidx] at hrec
    have hhead : (p :: pre).map Except.ok ++ Except.ok badRow :: post
        = Except.ok p :: (pre.map Except.ok ++ Except.ok badRow :: post) := rfl
    rw [hhead,
      parseCSVRows_cons_ok colMap defaults accounts categories employees providers periods p
        (pre.map Except.ok ++ Except.ok badRow :: post) idx ent hent,
      hrec]

theorem parseCSVRows_first_read_error (colMap : columnMap) (defaults : Defaults)
    (accounts : List Account) (categories : List (String × Category))
    (employees : List (String × Employee)) (providers : List (String × Provider))
    (periods : List (String × Period)) :
    ∀ (pre : List (List String)) (idx : ℕ) (e : String)
      (post : List (Except String (List String))),
      (∀ (i : ℕ) (h : i < pre.length), ∃ entry,
          createEntryFromRow (pre.get ⟨i, h⟩) colMap defaults (idx + i) accounts categories
            employees providers periods = GoResult.ok entry) →
      parseCSVRows colMap defaults accounts categories employees providers periods
          (pre.map Except.ok ++ Except.error e :: post) idx
        = GoResult.error ("failed to read row " ++ toString (idx + pre.length) ++ ": " ++ e) := by
  intro pre
  induction pre with
  | nil =>
    intro idx e post _
    rfl
  | cons p pre ih =>
    intro idx e post hpre
    obtain ⟨ent, hent0⟩ := hpre 0 (by simp)
    have hent : createEntryFromRow p colMap defaults idx accounts categories employees providers
        periods = GoResult.ok ent := hent0
    have hpre' : ∀ (i : ℕ) (h : i < pre.length), ∃ entry,
        createEntryFromRow (pre.get ⟨i, h⟩) colMap defaults (idx + 1 + i) accounts categories
          employees providers periods = GoResult.ok entry := by
      intro i h
      obtain ⟨entry, hentry⟩ := hpre (i + 1) (by simpa using Nat.succ_lt_succ h)
      refine ⟨entry, ?_⟩
      rw [show idx + 1 + i = idx + (i + 1) by omega]
      simpa using hentry
    have hrec := ih (idx + 1) e post hpre'
    have hidx : idx + 1 + pre.length = idx + (p :: pre).length := by
      simp only [List.length_cons]; omega
    rw [hidx] at hrec
    have hhead : (p :: pre).map Except.ok ++ Except.error e :: post
        = Except.ok p :: (pre.map Except.ok ++ Except.error e :: post) := rfl
    rw [hhead,
      parseCSVRows_cons_ok colMap defaults accounts categories employees providers periods p
        (pre.map Except.ok ++ Except.error e :: post) idx ent hent,
      hrec]

theorem parseCSVRows_all_ok (colMap : columnMap) (defaults : Defaults)
    (accounts : List Account) (categories : List (String × Category))
    (employees : List (String × Employee)) (providers : List (String × Provider))
    (periods : List (String × Period)) :
    ∀ (rows : List (List String)) (idx : ℕ) (entries : List Entry),
      rows.length = entries.length →
      (∀ (i : ℕ) (h1 : i < rows.length) (h2 : i < entries.length),
          createEntryFromRow (rows.get ⟨i, h1⟩) colMap defaults (idx + i) accounts categories
            employees providers periods = GoResult.ok (entries.get ⟨i, h2⟩)) →
      parseCSVRows colMap defaults accounts categories employees providers periods
          (rows.map Except.ok) idx = GoResult.ok entries := by
  intro rows
  induction rows with
  | nil =>
    intro idx entries hlen _
    have : entries = [] := by
      cases entries
      · rfl
      · simp at hlen
    subst this
    rfl
  | cons r rows ih =>
    intro idx entries hlen hconv
    cases entries with
    | nil => simp at hlen
    | cons ent ents =>
      have h0 : createEntryFromRow r colMap defaults idx accounts categories employees providers
          periods = GoResult.ok ent := hconv 0 (by simp) (by simp)
      have hrest : parseCSVRows colMap defaults accounts categories employees providers periods
          (rows.map Except.ok) (idx + 1) = GoResult.ok ents := by
        apply ih (idx + 1) ents (by simpa using hlen)
        intro i h1 h2
        have hc := hconv (i + 1) (by simpa using Nat.succ_lt_succ h1)
          (by simpa using Nat.succ_lt_succ h2)
        rw [show idx + (i + 1) = idx + 1 + i by omega] at hc
        exact hc
      rw [List.map_cons,
        parseCSVRows_cons_ok colMap defaults accounts categories employees providers periods r
          (rows.map Except.ok) idx ent h0,
        hrest]

/-- C2 (amended): parseCSV is aborted by the first bad row: when every row
before some failing row converts successfully, the whole batch stops there
with an error naming that row's one-based index and wrapping that row's
message, and no entries are returned; rows after the failure are never
processed and their errors never appear. A structural row-read failure
(second conjunct) likewise aborts at that row's index with the
failed-to-read message. Only when every row converts does parseCSV return
the entries, in input order. -/
theorem parseCSV_aborts_at_first_bad_row :
    (∀ (columnsCfg : CSVColumns) (defaults : Defaults) (accounts : List Account)
        (categories : List Category) (employees : List Employee) (providers : List Provider)
        (periods : List Period) (header : List String) (pre : List (List String))
        (badRow : List String) (post : List (Except String (List String))) (e : String),
      (∀ (i : ℕ) (h : i < pre.length), ∃ entry,
          createEntryFromRow (pre.get ⟨i, h⟩) (buildColumnMap header columnsCfg) defaults
            (1 + i) accounts (createCategoriesMap categories) (createEmployeesMap employees)
            (createProvidersMap providers) (createPeriodsMap periods) = GoResult.ok entry) →
      createEntryFromRow badRow (buildColumnMap header columnsCfg) defaults (1 + pre.length)
          accounts (createCategoriesMap categories) (createEmployeesMap employees)
          (createProvidersMap providers) (createPeriodsMap periods) = GoResult.error e →
      parseCSV (Except.ok header :: (pre.map Except.ok ++ Except.ok badRow :: post))
          columnsCfg defaults accounts categories employees providers periods
        = GoResult.error ("failed to process entry on row " ++ toString (1 + pre.length)
            ++ ": " ++ e))
    ∧ (∀ (columnsCfg : CSVColumns) (defaults : Defaults) (accounts : List Account)
        (categories : List Category) (employees : List Employee) (providers : List Provider)
        (periods : List Period) (header : List String) (pre : List (List String))
        (post : List (Except String (List String))) (e : String),
      (∀ (i : ℕ) (h : i < pre.length), ∃ entry,
          createEntryFromRow (pre.get ⟨i, h⟩) (buildColumnMap header columnsCfg) defaults
            (1 + i) accounts (createCategoriesMap categories) (createEmployeesMap employees)
            (createProvidersMap providers) (createPeriodsMap periods) = GoResult.ok entry) →
      parseCSV (Except.ok header :: (pre.map Except.ok ++ Except.error e :: post))
          columnsCfg defaults accounts categories employees providers periods
        = GoResult.error ("failed to read row " ++ toString (1 + pre.length) ++ ": " ++ e))
    ∧ (∀ (columnsCfg : CSVColumns) (defaults : Defaults) (accounts : List Account)
        (categories : List Category) (employees : List Employee) (providers : List Provider)
        (periods : List Period) (header : List String) (rows : List (List String))
        (entries : List Entry),
      rows.length = entries.length →
      (∀ (i : ℕ) (h1 : i < rows.length) (h2 : i < entries.length),
          createEntryFromRow (rows.get ⟨i, h1⟩) (buildColumnMap header columnsCfg) defaults
            (1 + i) accounts (createCategoriesMap categories) (createEmployeesMap employees)
            (createProvidersMap providers) (createPeriodsMap periods)
            = GoResult.ok (entries.get ⟨i, h2⟩)) →
      parseCSV (Except.ok header :: rows.map Except.ok) columnsCfg defaults accounts categories
          employees providers periods = GoResult.ok entries) := by
  refine ⟨?_, ?_, ?_⟩
  · intro columnsCfg defaults accounts categories employees providers periods header pre badRow
      post e hpre hbad
    exact parseCSVRows_first_failure (buildColumnMap header columnsCfg) defaults accounts
      (createCategoriesMap categories) (createEmployeesMap employees)
      (createProvidersMap providers) (createPeriodsMap periods) pre 1 badRow post e hpre hbad
  · intro columnsCfg defaults accounts categories employees providers periods header pre post
      e hpre
    exact parseCSVRows_first_read_error (buildColumnMap header columnsCfg) defaults accounts
      (createCategoriesMap categories) (createEmployeesMap employees)
      (createProvidersMap providers) (createPeriodsMap periods) pre 1 e post hpre
  · intro columnsCfg defaults accounts categories employees providers periods header rows
      entries hlen hconv
    exact parseCSVRows_all_ok (buildColumnMap header columnsCfg) defaults accounts
      (createCategoriesMap categories) (createEmployeesMap employees)
      (createProvidersMap providers) (createPeriodsMap periods) rows 1 entries hlen hconv

/-- Witness for C2 (amended): a good row followed by a bad-date row aborts
with the row-2 message, a structural read failure on the first body row
aborts with the failed-to-read message, and a body with no rows yields no
entries. -/
theorem parseCSV_aborts_at_first_bad_row_witness :
    parseCSV
        [Except.ok minimalHeader,
         Except.ok ["01/01/2025", "Test Purchase", "100.50", "", "", "", "", "", "",
           "Test comment", "", "", "First National Bank"],
         Except.ok ["2025-01-01", "Bad Row", "10", "", "", "", "", "", "", "", "", "", ""]]
        minimalColumns baseDefaults mockAccounts mockCategories mockEmployees mockProviders
        mockPeriods
      = GoResult.error ("failed to process entry on row 2: " ++ dateParseErrMsg ("2025-01-01"))
    ∧ parseCSV [Except.ok minimalHeader, Except.error ("wrong number of fields")]
        minimalColumns baseDefaults mockAccounts mockCategories mockEmployees mockProviders
        mockPeriods = GoResult.error ("failed to read row 1: wrong number of fields")
    ∧ parseCSV [Except.ok minimalHeader] minimalColumns baseDefaults mockAccounts mockCategories
        mockEmployees mockProviders mockPeriods = GoResult.ok [] :=
  ⟨parseCSV_aborts_at_first_bad_row.1 minimalColumns baseDefaults mockAccounts mockCategories
      mockEmployees mockProviders mockPeriods minimalHeader
      [["01/01/2025", "Test Purchase", "100.50", "", "", "", "", "", "",
        "Test comment", "", "", "First National Bank"]]
      ["2025-01-01", "Bad Row", "10", "", "", "", "", "", "", "", "", "", ""] [] _
      (fun i h =>
        match i, h with
        | 0, _ => ⟨_, rfl⟩
        | i + 1, h => absurd h (by simp))
      rfl,
    parseCSV_aborts_at_first_bad_row.2.1 minimalColumns baseDefaults mockAccounts mockCategories
      mockEmployees mockProviders mockPeriods minimalHeader [] [] ("wrong number of fields")
      (fun i h => absurd h (by simp)),
    parseCSV_aborts_at_first_bad_row.2.2 minimalColumns baseDefaults mockAccounts mockCategories
      mockEmployees mockProviders mockPeriods minimalHeader [] [] rfl
      (fun i h1 _ => absurd h1 (by simp))⟩

/-- Counterexample for C2: two bad rows after a readable header make
parseCSV return immediately with only the first row's error: the second
row's failure is not recorded, the errors are not joined, and no entries
are produced — the batch is aborted by a single bad row. -/
theorem parseCSV_single_bad_row_aborts_counterexample :
    parseCSV
        [Except.ok minimalHeader,
         Except.ok ["2025-01-01", "Bad 1", "10", "", "", "", "", "", "", "", "", "", ""],
         Except.ok ["", "Bad 2", "10", "", "", "", "", "", "", "", "", "", ""]]
        minimalColumns baseDefaults mockAccounts mockCategories mockEmployees mockProviders
        mockPeriods
      = GoResult.error ("failed to process entry on row 1: " ++ dateParseErrMsg ("2025-01-01"))
    ∧ strContainsSub ("row 2")
        ("failed to process entry on row 1: " ++ dateParseErrMsg ("2025-01-01")) = false := by
  exact ⟨rfl, rfl⟩

/-- Modelled from the spec (claim C9): the zero-based index of the last
header cell whose text equals `name`, starting the count at `i`. -/
def lastMatchIdx (name : String) (i : ℕ) : List String → Option ℕ
  | [] => none
  | h :: rest =>
    match lastMatchIdx name (i + 1) rest with
    | some j => some j
    | none => if h = name then some i else none

/-- Modelled from the spec (claim C9): the index buildColumnMap should
record for a logical field — the last header cell exactly equal to the
field's non-empty configured name, and the sentinel -1 when the configured
name is empty or matches no header cell. -/
def columnMapSpec (header : List String) (c : CSVColumns) (f : ColField) : ℤ :=
  if colName c f = "" then -1
  else
    match lastMatchIdx (colName c f) 0 header with
    | some j => (j : ℤ)
    | none => -1

/-- The index, if any, at which the header loop of buildColumnMap performs
its last assignment into the field `f`, starting the count at `i`. -/
def lastAssignIdx (c : CSVColumns) (f : ColField) (i : ℕ) : List String → Option ℕ
  | [] => none
  | h :: rest =>
    match lastAssignIdx c f (i + 1) rest with
    | some j => some j
    | none => if h ≠ "" ∧ lastFieldWithName c h = some f then some i else none

theorem getLast?_some_mem {α : Type} {l : List α} {a : α} (h : l.getLast? = some a) :
    a ∈ l := by
  obtain ⟨hne, heq⟩ := List.mem_getLast?_eq_getLast (Option.mem_def.mpr h)
  rw [heq]
  exact List.getLast_mem hne

theorem mem_literalOrder (f : ColField) : f ∈ literalOrder := by
  cases f <;> simp [literalOrder]

theorem colName_of_lastFieldWithName (c : CSVColumns) (h : String) (f : ColField)
    (hl : lastFieldWithName c h = some f) : colName c f = h := by
  have hmem : f ∈ literalOrder.filter (fun g => colName c g == h) := getLast?_some_mem hl
  exact eq_of_beq (List.mem_filter.mp hmem).2

theorem lastFieldWithName_self (c : CSVColumns) (f : ColField)
    (hdist : ∀ g1 g2 : ColField, g1 ≠ g2 → colName c g1 ≠ "" → colName c g1 ≠ colName c g2)
    (hf : colName c f ≠ "") :
    lastFieldWithName c (colName c f) = some f := by
  unfold lastFieldWithName
  cases hg : (literalOrder.filter (fun g => colName c g == colName c f)).getLast? with
  | none =>
    exfalso
    have hnil : literalOrder.filter (fun g => colName c g == colName c f) = [] :=
      List.getLast?_eq_none_iff.mp hg
    have hfmem : f ∈ literalOrder.filter (fun g => colName c g == colName c f) :=
      List.mem_filter.mpr ⟨mem_literalOrder f, by simp⟩
    rw [hnil] at hfmem
    exact List.not_mem_nil f hfmem
  | some g =>
    have hbeq := (List.mem_filter.mp (getLast?_some_mem hg)).2
    have heq : colName c g = colName c f := eq_of_beq hbeq
    by_cases hfg : g = f
    · rw [hfg]
    · exact absurd heq.symm (hdist f g (fun hcc => hfg hcc.symm) hf)

theorem cellAssign_iff (c : CSVColumns) (f : ColField)
    (hdist : ∀ g1 g2 : ColField, g1 ≠ g2 → colName c g1 ≠ "" → colName c g1 ≠ colName c g2)
    (hf : colName c f ≠ "") (h : String) :
    (h ≠ "" ∧ lastFieldWithName c h = some f) ↔ h = colName c f := by
  constructor
  · rintro ⟨_, hl⟩
    exact (colName_of_lastFieldWithName c h f hl).symm
  · rintro rfl
    exact ⟨hf, lastFieldWithName_self c f hdist hf⟩

theorem lastAssignIdx_eq_lastMatchIdx (c : CSVColumns) (f : ColField)
    (hdist : ∀ g1 g2 : ColField, g1 ≠ g2 → colName c g1 ≠ "" → colName c g1 ≠ colName c g2)
    (hf : colName c f ≠ "") :
    ∀ (l : List String) (i : ℕ), lastAssignIdx c f i l = lastMatchIdx (colName c f) i l := by
  intro l
  induction l with
  | nil => intro i; rfl
  | cons h rest ih =>
    intro i
    simp only [lastAssignIdx, lastMatchIdx]
    rw [ih (i + 1)]
    cases lastMatchIdx (colName c f) (i + 1) rest with
    | some j => rfl
    | none => exact if_congr (cellAssign_iff c f hdist hf h) rfl rfl

theorem lastAssignIdx_none_of_empty (c : CSVColumns) (f : ColField)
    (hf : colName c f = "") : ∀ (l : List String) (i : ℕ), lastAssignIdx c f i l = none := by
  intro l
  induction l with
  | nil => intro i; rfl
  | cons h rest ih =>
    intro i
    simp only [lastAssignIdx]
    rw [ih]
    have hcond : ¬(h ≠ "" ∧ lastFieldWithName c h = some f) := by
      rintro ⟨hne, hl⟩
      exact hne ((colName_of_lastFieldWithName c h f hl) ▸ hf)
    simp [hcond]

theorem getCol_setCol_same (m : columnMap) (f : ColField) (i : ℤ) :
    getCol (setCol m f i) f = i := by
  cases f <;> rfl

theorem getCol_setCol_ne (m : columnMap) (f g : ColField) (i : ℤ) (hne : f ≠ g) :
    getCol (setCol m g i) f = getCol m f := by
  cases f <;> cases g <;> first | rfl | exact absurd rfl hne

theorem getCol_initColumnMap (f : ColField) : getCol initColumnMap f = -1 := by
  cases f <;> rfl

theorem buildColumnMapAux_getCol (c : CSVColumns) (f : ColField) :
    ∀ (l : List String) (acc : columnMap) (i : ℕ),
      getCol (buildColumnMapAux c acc i l) f
        = (match lastAssignIdx c f i l with
           | some j => (j : ℤ)
           | none => getCol acc f) := by
  intro l
  induction l with
  | nil => intro acc i; rfl
  | cons h rest ih =>
    intro acc i
    simp only [buildColumnMapAux, lastAssignIdx]
    rw [ih (assignHeaderCell c acc i h) (i + 1)]
    cases hrec : lastAssignIdx c f (i + 1) rest with
    | some j => rfl
    | none =>
      unfold assignHeaderCell
      cases hlf : lastFieldWithName c h with
      | none => simp
      | some g =>
        by_cases hne : h = ""
        · simp [hne]
        · by_cases hfg : f = g
          · subst hfg
            simp [hne, getCol_setCol_same]
          · simp [hne, Ne.symm hfg, getCol_setCol_ne acc f g i hfg]

/-- C9 (amended): when the non-empty configured names are pairwise distinct,
buildColumnMap records for each logical field the index of the last header
cell exactly equal to its non-empty configured name, and the sentinel -1
when the configured name is empty or matches no header cell. When two
logical fields share a configured name, the Go map literal keeps only the
field later in its fixed literal order, and the other field keeps -1. -/
theorem buildColumnMap_matches_spec (header : List String) (c : CSVColumns)
    (hdist : ∀ g1 g2 : ColField, g1 ≠ g2 → colName c g1 ≠ "" → colName c g1 ≠ colName c g2) :
    ∀ f, getCol (buildColumnMap header c) f = columnMapSpec header c f := by
  intro f
  unfold buildColumnMap columnMapSpec
  by_cases hf : colName c f = ""
  · rw [if_pos hf, buildColumnMapAux_getCol, lastAssignIdx_none_of_empty c f hf]
    exact getCol_initColumnMap f
  · rw [if_neg hf, buildColumnMapAux_getCol, lastAssignIdx_eq_lastMatchIdx c f hdist hf]
    cases lastMatchIdx (colName c f) 0 header with
    | some j => rfl
    | none => exact getCol_initColumnMap f

/-- Witness for C9 (amended) at the thirteen-column test configuration,
whose configured names are pairwise distinct. -/
theorem buildColumnMap_matches_spec_witness :
    getCol (buildColumnMap minimalHeader minimalColumns) ColField.date
      = columnMapSpec minimalHeader minimalColumns ColField.date :=
  buildColumnMap_matches_spec minimalHeader minimalColumns (by decide) ColField.date

/-- Configuration giving two logical fields the same header name, as the
loader accepts. -/
def dupColumns : CSVColumns := { name := "X", date := "X" }

/-- Counterexample for C9: with the name and date fields both configured as
"X", the header cell "X" equals the non-empty configured name of the name
field, yet the name field keeps the sentinel -1 (the duplicated map-literal
key keeps only the date field, which receives the index). -/
theorem buildColumnMap_duplicate_name_counterexample :
    colName dupColumns ColField.name = "X"
      ∧ ("X" : String) ≠ ""
      ∧ getCol (buildColumnMap ["X"] dupColumns) ColField.name = -1
      ∧ getCol (buildColumnMap ["X"] dupColumns) ColField.date = 0 := by
  exact ⟨rfl, by decide, rfl, rfl⟩

end HappyCompta
